import Mathlib

/- Verification of the Mars Chronicles session logic
   (mars_chronicles_full.py): the profile data model, the response
   parser, the generation wrapper, the caller's branching, and the
   JSON save/load path, embedded shallowly in Lean. -/

/-- One entry of the fixed location list (the "locations" key of
`DEFAULT_PROFILE`, source lines 23-28): a display name and an image path. -/
structure Location where
  name : String
  image : String
deriving DecidableEq

/-- The mutable session profile `st.session_state.user_data`, with the keys of
`DEFAULT_PROFILE` (source lines 12-29). `progress` is kept as a natural
number: it starts at 0 and is only ever incremented. -/
structure Profile where
  name : String
  gender : String
  age : Int
  origin : String
  genre : String
  progress : Nat
  inventory : List String
  location : String
  story_id : String
  created : Bool
  locations : List Location
deriving DecidableEq

/-- The four colony locations of `DEFAULT_PROFILE["locations"]`. -/
def DEFAULT_LOCATIONS : List Location :=
  [{ name := "Mars Colony Alpha", image := "images/colony_alpha.jpg" },
   { name := "Olympus Mons Outpost", image := "images/olympus_mons.jpg" },
   { name := "Valles Marineris Hub", image := "images/valles_marineris.jpg" },
   { name := "Polar Caps Station", image := "images/polar_caps.jpg" }]

/-- `DEFAULT_PROFILE` (source lines 12-29); the `uuid.uuid4()` story id is
nondeterministic in the source, so it is a parameter here. -/
def DEFAULT_PROFILE (story_id : String) : Profile :=
  { name := "Alex", gender := "Non-binary", age := 25,
    origin := "New York, Earth", genre := "Sci-Fi", progress := 0,
    inventory := [], location := "Mars Colony Alpha", story_id := story_id,
    created := false, locations := DEFAULT_LOCATIONS }

/-- Python `str.split` on a one-character separator: splitting the empty
string gives `[""]`, and a separator at either end yields an empty piece. -/
def split_on_char (c : Char) : List Char → List (List Char)
  | [] => [[]]
  | x :: xs =>
    match split_on_char c xs with
    | [] => [[]]
    | r :: rs => if x == c then [] :: r :: rs else (x :: r) :: rs

/-- `full_text.split("\n")` as both comprehensions on source lines 91-92
perform it. -/
def split_newlines (s : String) : List String :=
  (split_on_char '\n' s.data).map String.mk

/-- Python `line.startswith(pre)` for one prefix, character by character. -/
def starts_with_chars : List Char → List Char → Bool
  | [], _ => true
  | _ :: _, [] => false
  | p :: ps, c :: cs => p == c && starts_with_chars ps cs

/-- Python `line.startswith(pre)` on strings. -/
def py_startswith (line pre : String) : Bool :=
  starts_with_chars pre.data line.data

/-- The choice-line test of source lines 91-92:
`line.startswith(('1.', '2.', '3.', '4.'))` — both the tuple literal of line
91 and `tuple(f"1." for i in range(1, 5))` of line 92 name these four
prefixes. -/
def is_choice_line (line : String) : Bool :=
  ["1.", "2.", "3.", "4."].any (fun pre => py_startswith line pre)

/-- Source lines 91-92: `story_text` is the newline-join of the lines that
are not choice lines, and `choices` collects each choice line with its first
three characters removed (`line[3:]`), both kept in original order. -/
def parse_segment (full_text : String) : String × List String :=
  (String.intercalate "\n"
      ((split_newlines full_text).filter (fun line => !(is_choice_line line))),
   ((split_newlines full_text).filter (fun line => is_choice_line line)).map
      (fun line => line.drop 3))

/-- The slice of the chat-completion response the code reads on source line
90: `response.choices[0].message.content`. -/
structure ApiMessage where
  content : String
deriving DecidableEq

/-- One completion choice of the remote response. -/
structure ApiChoice where
  message : ApiMessage
deriving DecidableEq

/-- The remote response: a list of completion choices. -/
structure ApiResponse where
  choices : List ApiChoice
deriving DecidableEq

/-- Source lines 94-97: recompute `location` from
`locations[progress + 1]` when that index is in range, and leave it
untouched otherwise. `progress` itself is not written here. -/
def update_location (p : Profile) : Profile :=
  match p.locations[p.progress + 1]? with
  | some loc => { p with location := loc.name }
  | none => p

/-- The `try:` body of `generate_story_segment` (source lines 64-99). The
outcome of the remote call of lines 65-88 is the `Except` argument; reading
`response.choices[0]` on line 90 fails when the response carries no
completion choice; the parsing of lines 91-92 and the location update of
lines 94-97 cannot fail; line 99 returns the story text with the choices
truncated to four. -/
def generate_body (remote : Except String ApiResponse) (p : Profile) :
    Except String (Profile × String × List String) :=
  match remote with
  | Except.error e => Except.error e
  | Except.ok response =>
    match response.choices.head? with
    | none => Except.error "list index out of range"
    | some choice0 =>
      Except.ok (update_location p,
                 (parse_segment choice0.message.content).1,
                 (parse_segment choice0.message.content).2.take 4)

/-- What `generate_story_segment` hands back to `main`: the optional story
text, the choice list, and the `st.error` message when the handler ran. -/
structure GenResult where
  story_text : Option String
  choices : List String
  error_msg : Option String
deriving DecidableEq

/-- `generate_story_segment` (source lines 62-103): the
`except Exception` handler of lines 101-103 turns every failure of the body
into an `st.error` message plus the result `(None, [])`, leaving the profile
exactly as it was. -/
def generate_story_segment (remote : Except String ApiResponse) (p : Profile) :
    Profile × GenResult :=
  match generate_body remote p with
  | Except.ok (p2, story_text, choices) =>
      (p2, { story_text := some story_text, choices := choices,
             error_msg := none })
  | Except.error e =>
      (p, { story_text := none, choices := [],
            error_msg := some ("Story generation failed: " ++ e) })

/-- A remote outcome carrying one completion whose content is `full_text`. -/
def ok_response (full_text : String) : Except String ApiResponse :=
  Except.ok { choices := [{ message := { content := full_text } }] }

/-- What the caller (source lines 216-230 of `main`) does with a generated
segment: display it with its choice buttons, warn, or render nothing. -/
inductive CallerAction where
  | display (story : String) (choices : List String)
  | warn (msg : String)
  | nothing
deriving DecidableEq

/-- Python truthiness of the optional story text: `None` and `""` are falsy,
every other string is truthy. -/
def py_truthy : Option String → Bool
  | none => false
  | some s => !(s == "")

/-- Source lines 216-230: `if story_text and choices:` displays the segment,
`elif not choices:` warns, and anything else renders nothing. -/
def caller_branch (story_text : Option String) (choices : List String) :
    CallerAction :=
  if py_truthy story_text && !(choices.isEmpty) then
    CallerAction.display (story_text.getD "") choices
  else if choices.isEmpty then
    CallerAction.warn "Failed to generate valid story choices. Try again!"
  else
    CallerAction.nothing

/-- One render pass of `main` past character creation (source lines
210-230): generate a segment, then branch on it. History and progress are
only written inside a button-click handler, never by rendering itself. -/
def main_render_step (remote : Except String ApiResponse) (p : Profile)
    (history : List String) : Profile × List String × CallerAction :=
  ((generate_story_segment remote p).1, history,
   caller_branch ((generate_story_segment remote p).2).story_text
     ((generate_story_segment remote p).2).choices)

/-- The choice-button click handler (source lines 224-228): increment
`progress` by one and append the chosen text to `story_choices`. -/
def record_choice (p : Profile) (history : List String) (choice : String) :
    Profile × List String :=
  ({ p with progress := p.progress + 1 }, history ++ [choice])

/-- One accepted choice as the app executes it: the generation pass has
already recomputed `location` from `progress + 1` (source lines 94-97), and
the click then increments `progress` and appends to history (source lines
224-228). -/
def accepted_choice (p : Profile) (history : List String) (choice : String) :
    Profile × List String :=
  record_choice (update_location p) history choice

/-- Source lines 211-212: the generation context is the literal
`"New story"` at progress 0, and otherwise the space-join of
`story_choices[-3:]`, the last at most three history entries in order. -/
def build_context (progress : Nat) (story_choices : List String) : String :=
  if progress == 0 then "New story"
  else String.intercalate " " (story_choices.drop (story_choices.length - 3))

/-- JSON values as `json.dumps` and `json.load` exchange them for this
profile: strings, integers, booleans, arrays and objects. -/
inductive Json where
  | str : String → Json
  | num : Int → Json
  | bool : Bool → Json
  | arr : List Json → Json
  | obj : List (String × Json) → Json

/-- Python `d[k] = v` on an insertion-ordered dict: replace the value in
place when the key exists, append the pair at the end otherwise. -/
def dict_set : List (String × Json) → String → Json → List (String × Json)
  | [], k, v => [(k, v)]
  | (k0, v0) :: rest, k, v =>
    if k0 == k then (k, v) :: rest else (k0, v0) :: dict_set rest k v

/-- Python `d.update(patch)` (source line 203): set every key of the patch
into the dict, in the patch's order. -/
def dict_update (d patch : List (String × Json)) : List (String × Json) :=
  patch.foldl (fun acc kv => dict_set acc kv.1 kv.2) d

/-- Python `d[k]` lookup on an insertion-ordered dict. -/
def dict_lookup : List (String × Json) → String → Option Json
  | [], _ => none
  | (k0, v0) :: rest, k => if k0 == k then some v0 else dict_lookup rest k

/-- One location entry as `json.dumps` writes it. -/
def serialize_location (loc : Location) : Json :=
  Json.obj [("name", Json.str loc.name), ("image", Json.str loc.image)]

/-- `json.dumps(st.session_state.user_data)` (source line 195): the profile
as a JSON object, keys in the dict's insertion order of lines 12-29. -/
def serialize_profile (p : Profile) : List (String × Json) :=
  [("name", Json.str p.name),
   ("gender", Json.str p.gender),
   ("age", Json.num p.age),
   ("origin", Json.str p.origin),
   ("genre", Json.str p.genre),
   ("progress", Json.num (Int.ofNat p.progress)),
   ("inventory", Json.arr (p.inventory.map Json.str)),
   ("location", Json.str p.location),
   ("story_id", Json.str p.story_id),
   ("created", Json.bool p.created),
   ("locations", Json.arr (p.locations.map serialize_location))]

/-- Read a JSON string back. -/
def as_string : Json → Option String
  | Json.str s => some s
  | _ => none

/-- Read a JSON integer back. -/
def as_int : Json → Option Int
  | Json.num n => some n
  | _ => none

/-- Read a non-negative JSON integer back as a natural number. -/
def as_nat : Json → Option Nat
  | Json.num (Int.ofNat n) => some n
  | _ => none

/-- Read a JSON boolean back. -/
def as_bool : Json → Option Bool
  | Json.bool b => some b
  | _ => none

/-- Decode every element of a list, failing when any one element fails. -/
def map_option (f : α → Option β) : List α → Option (List β)
  | [] => some []
  | x :: xs => do
    let y ← f x
    let ys ← map_option f xs
    pure (y :: ys)

/-- Read one location entry back. -/
def as_location : Json → Option Location
  | Json.obj fields => do
    let n ← dict_lookup fields "name" >>= as_string
    let img ← dict_lookup fields "image" >>= as_string
    pure { name := n, image := img }
  | _ => none

/-- Read a string array back. -/
def as_string_list : Json → Option (List String)
  | Json.arr xs => map_option as_string xs
  | _ => none

/-- Read the location array back. -/
def as_location_list : Json → Option (List Location)
  | Json.arr xs => map_option as_location xs
  | _ => none

/-- The typed view of the session dict: read every profile field out of a
JSON object, failing when one is absent or of the wrong shape. -/
def dict_to_profile (d : List (String × Json)) : Option Profile := do
  let name ← dict_lookup d "name" >>= as_string
  let gender ← dict_lookup d "gender" >>= as_string
  let age ← dict_lookup d "age" >>= as_int
  let origin ← dict_lookup d "origin" >>= as_string
  let genre ← dict_lookup d "genre" >>= as_string
  let progress ← dict_lookup d "progress" >>= as_nat
  let inventory ← dict_lookup d "inventory" >>= as_string_list
  let location ← dict_lookup d "location" >>= as_string
  let story_id ← dict_lookup d "story_id" >>= as_string
  let created ← dict_lookup d "created" >>= as_bool
  let locations ← dict_lookup d "locations" >>= as_location_list
  pure { name := name, gender := gender, age := age, origin := origin,
         genre := genre, progress := progress, inventory := inventory,
         location := location, story_id := story_id, created := created,
         locations := locations }

/-- Source lines 199-206 of `main`: `json.load` the uploaded file and
`update` the session dict with it; the `except` branch shows the error and
leaves the dict untouched. The parse outcome of the uploaded bytes is the
`Except` argument. -/
def load_uploaded_save (parsed : Except String (List (String × Json)))
    (user_data : List (String × Json)) : List (String × Json) × String :=
  match parsed with
  | Except.ok data => (dict_update user_data data, "Game loaded successfully!")
  | Except.error e => (user_data, "Invalid save file: " ++ e)

/-- A profile already standing past the end of its location list: progress 3
with the four default locations, but a location string of its own. -/
def edge_profile : Profile :=
  { DEFAULT_PROFILE "edge-story" with progress := 3, location := "Lost Valley" }

/-- The location `update_location` leaves behind, phrased through a bounds
check and a defaulted index. -/
theorem update_location_location (p : Profile) :
    (update_location p).location =
      (if p.progress + 1 < p.locations.length
       then (p.locations.getD (p.progress + 1) { name := "", image := "" }).name
       else p.location) := by
  unfold update_location
  cases h : p.locations[p.progress + 1]? with
  | none =>
    have hlen : p.locations.length ≤ p.progress + 1 :=
      List.getElem?_eq_none_iff.mp h
    simp [Nat.not_lt.mpr hlen]
  | some loc =>
    obtain ⟨hlt, hget⟩ := List.getElem?_eq_some_iff.mp h
    simp [hlt, hget, h]

/-- `update_location` writes no profile field other than `location`. -/
theorem update_location_frame (p : Profile) :
    (update_location p).name = p.name ∧ (update_location p).gender = p.gender ∧
    (update_location p).age = p.age ∧ (update_location p).origin = p.origin ∧
    (update_location p).genre = p.genre ∧
    (update_location p).progress = p.progress ∧
    (update_location p).inventory = p.inventory ∧
    (update_location p).story_id = p.story_id ∧
    (update_location p).created = p.created ∧
    (update_location p).locations = p.locations := by
  unfold update_location
  cases p.locations[p.progress + 1]? <;> simp

/-- The profile a generation pass leaves behind is either untouched or
exactly the location update. -/
theorem generate_profile_shape (remote : Except String ApiResponse)
    (p : Profile) :
    (generate_story_segment remote p).1 = p ∨
    (generate_story_segment remote p).1 = update_location p := by
  cases remote with
  | error e => exact Or.inl rfl
  | ok resp =>
    obtain ⟨cs⟩ := resp
    cases cs with
    | nil => exact Or.inl rfl
    | cons c0 rest => exact Or.inr rfl

/-- No generation pass ever changes `progress`. -/
theorem generation_keeps_progress (remote : Except String ApiResponse)
    (p : Profile) :
    ((generate_story_segment remote p).1).progress = p.progress := by
  rcases generate_profile_shape remote p with h | h
  · rw [h]
  · rw [h]
    exact (update_location_frame p).2.2.2.2.2.1

/-- Decoding a serialized string list gives the list back. -/
theorem map_option_str (xs : List String) :
    map_option as_string (xs.map Json.str) = some xs := by
  induction xs with
  | nil => rfl
  | cons x xs ih => simp [map_option, as_string, ih]

/-- Decoding a serialized location list gives the list back. -/
theorem map_option_loc (ls : List Location) :
    map_option as_location (ls.map serialize_location) = some ls := by
  induction ls with
  | nil => rfl
  | cons l ls ih =>
    have h : as_location (serialize_location l) = some l := rfl
    simp [map_option, h, ih]

/-- Re-setting every serialized key with its own value reproduces the
serialized dict exactly. -/
theorem dict_update_serialize_self (p : Profile) :
    dict_update (serialize_profile p) (serialize_profile p) =
      serialize_profile p := rfl

/-- The typed view of a freshly serialized profile is the profile itself. -/
theorem dict_to_profile_serialize (p : Profile) :
    dict_to_profile (serialize_profile p) = some p := by
  show (map_option as_string (p.inventory.map Json.str)).bind (fun inventory =>
      (map_option as_location (p.locations.map serialize_location)).bind
        (fun locations =>
          some { name := p.name, gender := p.gender, age := p.age,
                 origin := p.origin, genre := p.genre, progress := p.progress,
                 inventory := inventory, location := p.location,
                 story_id := p.story_id, created := p.created,
                 locations := locations })) = some p
  simp only [map_option_str, map_option_loc, Option.some_bind]

/-- C1: the parser splits the raw response into lines, classifies a line as
a choice line exactly when it starts with one of the literal prefixes "1.",
"2.", "3.", "4.", joins the non-choice lines in original order with
newlines into the narrative, yields each choice by stripping the first
three characters of its line, and returns at most four choices in original
order; on the worked example the narrative is "Para one.\nPara two." and
the choices are ["Go left", "Go right"]. -/
theorem response_parsing_correct (full_text : String) (p : Profile) :
    ((generate_story_segment (ok_response full_text) p).2).story_text =
      some (String.intercalate "\n"
        ((split_newlines full_text).filter
          (fun line => !(is_choice_line line)))) ∧
    ((generate_story_segment (ok_response full_text) p).2).choices =
      (((split_newlines full_text).filter
          (fun line => is_choice_line line)).map
        (fun line => line.drop 3)).take 4 ∧
    ((generate_story_segment (ok_response full_text) p).2).choices.length ≤ 4 ∧
    (∀ line : String, is_choice_line line =
      (py_startswith line "1." || py_startswith line "2." ||
       py_startswith line "3." || py_startswith line "4.")) ∧
    List.Sublist ((generate_story_segment (ok_response full_text) p).2).choices
      ((split_newlines full_text).map (fun line => line.drop 3)) ∧
    parse_segment "Para one.\n1. Go left\n2. Go right\nPara two." =
      ("Para one.\nPara two.", ["Go left", "Go right"]) := by
  refine ⟨rfl, rfl, ?_, ?_, ?_, by decide⟩
  · exact List.length_take_le 4 _
  · intro line
    simp [is_choice_line, List.any, Bool.or_assoc]
  · have h2 : (((split_newlines full_text).filter
        (fun line => is_choice_line line)).map
          (fun line => line.drop 3)).Sublist
        ((split_newlines full_text).map (fun line => line.drop 3)) :=
      List.Sublist.map _ (List.filter_sublist _)
    exact (List.take_sublist 4 _).trans h2

/-- C2 as stated fails: with the non-empty default location list and
progress 3, an accepted choice leaves the location "Lost Valley" unchanged
instead of clamping it to the last list entry "Polar Caps Station". -/
theorem accepted_choice_no_clamp_cex :
    ((accepted_choice edge_profile [] "press on").1).location ≠
      ((edge_profile.locations.getD
        (min (edge_profile.progress + 1) (edge_profile.locations.length - 1))
        { name := "", image := "" }).name) := by decide

/-- C2 amended: after one accepted choice from progress p, the profile's
progress is p + 1 and its location equals `locations[p+1].name` when p + 1
is within the list — where the claimed min-clamped index agrees — and is
unchanged when p + 1 is out of range or the list is empty. -/
theorem accepted_choice_location (p : Profile) (history : List String)
    (choice : String) :
    ((accepted_choice p history choice).1).progress = p.progress + 1 ∧
    ((accepted_choice p history choice).1).location =
      (if p.progress + 1 < p.locations.length
       then (p.locations.getD (p.progress + 1) { name := "", image := "" }).name
       else p.location) := by
  constructor
  · show (update_location p).progress + 1 = p.progress + 1
    rw [(update_location_frame p).2.2.2.2.2.1]
  · show (update_location p).location = _
    exact update_location_location p

/-- C3 as stated fails: a segment with exactly one parsed choice — fewer
than two — and a non-empty narrative is displayed as a valid segment with a
choice button, not treated as invalid. -/
theorem single_choice_displayed_cex :
    ¬ (∀ (story_text : Option String) (choices : List String),
        choices.length < 2 →
          ∃ msg, caller_branch story_text choices = CallerAction.warn msg) := by
  intro hclaim
  obtain ⟨msg, hmsg⟩ :=
    hclaim (some "The airlock hisses.") ["Open the hatch"] (by decide)
  have hd : caller_branch (some "The airlock hisses.") ["Open the hatch"] =
      CallerAction.display "The airlock hisses." ["Open the hatch"] := by decide
  rw [hd] at hmsg
  exact CallerAction.noConfusion hmsg

/-- C3 amended: when the parsed choice list is empty, the caller surfaces
the warning "Failed to generate valid story choices. Try again!" and the
render pass leaves progress and history unchanged; a one-choice segment
with a narrative is instead displayed as valid, and the generation side
effect may already have moved the location. -/
theorem empty_choices_warned (remote : Except String ApiResponse)
    (p : Profile) (history : List String)
    (h : ((generate_story_segment remote p).2).choices = []) :
    (main_render_step remote p history).2.2 =
      CallerAction.warn "Failed to generate valid story choices. Try again!" ∧
    (main_render_step remote p history).2.1 = history ∧
    ((main_render_step remote p history).1).progress = p.progress := by
  refine ⟨?_, rfl, ?_⟩
  · show caller_branch ((generate_story_segment remote p).2).story_text
      ((generate_story_segment remote p).2).choices = _
    rw [h]
    simp [caller_branch]
  · show ((generate_story_segment remote p).1).progress = p.progress
    exact generation_keeps_progress remote p

/-- C3 witness: a successful response with a narrative and no numbered
lines parses to no choices; the render pass warns and leaves history and
progress exactly as they were. -/
theorem empty_choices_warned_witness :
    (main_render_step (ok_response "Dust settles over the colony.")
        (DEFAULT_PROFILE "w3") ["go east"]).2.2 =
      CallerAction.warn "Failed to generate valid story choices. Try again!" ∧
    (main_render_step (ok_response "Dust settles over the colony.")
        (DEFAULT_PROFILE "w3") ["go east"]).2.1 = ["go east"] ∧
    ((main_render_step (ok_response "Dust settles over the colony.")
        (DEFAULT_PROFILE "w3") ["go east"]).1).progress =
      (DEFAULT_PROFILE "w3").progress :=
  empty_choices_warned (ok_response "Dust settles over the colony.")
    (DEFAULT_PROFILE "w3") ["go east"] rfl

/-- C4: one click of a choice button increments progress by exactly one and
appends the chosen text as the new last history entry, growing the history
by one. -/
theorem record_choice_correct (p : Profile) (history : List String)
    (choice : String) :
    ((record_choice p history choice).1).progress = p.progress + 1 ∧
    ((record_choice p history choice).2).length = history.length + 1 ∧
    (record_choice p history choice).2 = history ++ [choice] ∧
    ((record_choice p history choice).2).getLast? = some choice := by
  refine ⟨rfl, by simp [record_choice], rfl, ?_⟩
  show (history ++ [choice]).getLast? = some choice
  exact List.getLast?_concat history

/-- C5 as stated fails: at progress 1 with history ["New story"], the
context equals the literal "New story" although progress is not 0, so the
claimed "if and only if" does not hold. -/
theorem context_new_story_iff_cex :
    ¬ (∀ (progress : Nat) (history : List String),
        build_context progress history = "New story" ↔ progress = 0) := by
  intro hclaim
  have h1 : build_context 1 ["New story"] = "New story" := by decide
  exact absurd ((hclaim 1 ["New story"]).mp h1) one_ne_zero

/-- C5 amended: the context equals "New story" whenever progress is 0, and
for non-zero progress it is the space-join of the last at most three
history entries, a suffix of the history of length `min 3 (length)` kept in
oldest-to-newest order; the joined text may coincidentally also read
"New story", so only this direction of the original "iff" holds. -/
theorem build_context_cases (progress : Nat) (history : List String) :
    if progress = 0 then build_context progress history = "New story"
    else build_context progress history =
        String.intercalate " " (history.drop (history.length - 3)) ∧
      List.IsSuffix (history.drop (history.length - 3)) history ∧
      (history.drop (history.length - 3)).length = min 3 history.length := by
  split
  · rename_i h
    simp [build_context, h]
  · rename_i h
    refine ⟨by simp [build_context, h], List.drop_suffix _ _, ?_⟩
    rw [List.length_drop]
    omega

/-- C6: when the remote call raises, `generate_story_segment` catches the
exception, surfaces the `st.error` message, and returns the empty result
`(None, [])` instead of propagating; the profile is exactly unchanged —
location, progress and all other fields — and the caller's render pass also
leaves the history as it was. -/
theorem remote_failure_caught (e : String) (p : Profile)
    (history : List String) :
    generate_story_segment (Except.error e) p =
      (p, { story_text := none, choices := [],
            error_msg := some ("Story generation failed: " ++ e) }) ∧
    main_render_step (Except.error e) p history =
      (p, history,
       CallerAction.warn "Failed to generate valid story choices. Try again!") :=
  ⟨rfl, rfl⟩

/-- C7: a successful generation leaves every profile field except
`location` unchanged — in particular progress is not incremented — and
recomputes `location` by indexing the location list at progress + 1,
leaving it unchanged when that index is out of range. -/
theorem generation_touches_only_location (full_text : String) (p : Profile) :
    ((generate_story_segment (ok_response full_text) p).1).name = p.name ∧
    ((generate_story_segment (ok_response full_text) p).1).gender = p.gender ∧
    ((generate_story_segment (ok_response full_text) p).1).age = p.age ∧
    ((generate_story_segment (ok_response full_text) p).1).origin = p.origin ∧
    ((generate_story_segment (ok_response full_text) p).1).genre = p.genre ∧
    ((generate_story_segment (ok_response full_text) p).1).progress =
      p.progress ∧
    ((generate_story_segment (ok_response full_text) p).1).inventory =
      p.inventory ∧
    ((generate_story_segment (ok_response full_text) p).1).story_id =
      p.story_id ∧
    ((generate_story_segment (ok_response full_text) p).1).created =
      p.created ∧
    ((generate_story_segment (ok_response full_text) p).1).locations =
      p.locations ∧
    ((generate_story_segment (ok_response full_text) p).1).location =
      (if p.progress + 1 < p.locations.length
       then (p.locations.getD (p.progress + 1) { name := "", image := "" }).name
       else p.location) := by
  have hgen : (generate_story_segment (ok_response full_text) p).1 =
      update_location p := rfl
  rw [hgen]
  obtain ⟨h1, h2, h3, h4, h5, h6, h7, h8, h9, h10⟩ := update_location_frame p
  exact ⟨h1, h2, h3, h4, h5, h6, h7, h8, h9, h10, update_location_location p⟩

/-- C8: serializing the profile and merging the deserialized patch
key-by-key into a copy of the same profile reproduces the dict exactly, and
reading the merged dict back as a typed profile reproduces every field of
the original profile. -/
theorem save_load_roundtrip (p : Profile) :
    dict_update (serialize_profile p) (serialize_profile p) =
      serialize_profile p ∧
    dict_to_profile (dict_update (serialize_profile p) (serialize_profile p)) =
      some p := by
  refine ⟨dict_update_serialize_self p, ?_⟩
  rw [dict_update_serialize_self p]
  exact dict_to_profile_serialize p

/-- C9: an upload whose bytes fail JSON parsing leaves the in-memory
profile dict exactly as it was and surfaces the invalid-save error
message. -/
theorem invalid_save_leaves_dict (e : String)
    (user_data : List (String × Json)) :
    load_uploaded_save (Except.error e) user_data =
      (user_data, "Invalid save file: " ++ e) := rfl

/-- C10: `generate_story_segment` is a total function whose handler catches
every failure of its body — the remote call as well as the response
access — and then returns the empty result `(None, [])` with the error
shown and the profile untouched, propagating nothing. -/
theorem body_failure_caught (remote : Except String ApiResponse) (p : Profile)
    (e : String) (h : generate_body remote p = Except.error e) :
    generate_story_segment remote p =
      (p, { story_text := none, choices := [],
            error_msg := some ("Story generation failed: " ++ e) }) := by
  unfold generate_story_segment
  rw [h]

/-- C10 witness: a body failure that is not a remote failure — a response
carrying no completion choice — is caught, and the default profile emerges
untouched beside the empty result. -/
theorem body_failure_caught_witness :
    generate_story_segment (Except.ok { choices := [] })
        (DEFAULT_PROFILE "id-0") =
      ((DEFAULT_PROFILE "id-0"),
       { story_text := none, choices := [],
         error_msg :=
           some ("Story generation failed: " ++ "list index out of range") }) :=
  body_failure_caught (Except.ok { choices := [] }) (DEFAULT_PROFILE "id-0")
    "list index out of range" rfl
